import Mathlib

/-!
Verification of the TelemetryOps services (ingest, aggregator, controlplane)
against their natural-language specification.

Doubles are modelled as exact rationals (ℚ); machine integers as ℤ/ℕ
(the quantities involved never approach overflow in the claims checked);
JSON objects exchanged between the services are modelled as structures
holding the fields the code reads.
-/

namespace TelemetryOps

/-- Alert thresholds held by the controlplane (`struct Thresholds`). -/
structure Thresholds where
  latency_p95_ms : ℚ
  drop_rate : ℚ
  min_link_quality : ℚ
  window_s : Int
deriving Repr, DecidableEq

/-- Default-constructed `Thresholds` (member initializers in the source). -/
def Thresholds.default : Thresholds :=
  { latency_p95_ms := 200, drop_rate := 5/100, min_link_quality := 7/10, window_s := 600 }

/-- The metrics JSON body produced by the aggregator `/metrics` handler and
parsed by the controlplane poller.  `ok = none` models an `"ok"` field that is
absent or not a boolean (the code treats both like `false`); the remaining
fields are those `eval_alerts` reads via `metrics.value(...)`. -/
structure Metrics where
  ok : Option Bool
  sat_id : String
  window_s : Int
  count : Int
  drop_rate : ℚ
  latency_p50_ms : ℚ
  latency_p95_ms : ℚ
  avg_link_quality : ℚ
deriving Repr, DecidableEq

/-- One alert JSON object as built by `eval_alerts`: severity and type are the
literal strings the code emits, `value`/`threshold`/`message` are present only
on the alerts that set them. -/
structure Alert where
  severity : String
  type : String
  value : Option ℚ := none
  threshold : Option ℚ := none
  message : Option String := none
deriving Repr, DecidableEq

/-- Function eval_alerts from `src/services/controlplane/main.cpp`:
the failure branch, the empty-count branch, then the three independent
threshold checks appended in order. -/
def eval_alerts (metrics : Metrics) (t : Thresholds) : List Alert :=
  if metrics.ok ≠ some true then
    [{ severity := "HIGH", type := "AGGREGATOR_ERROR", message := some "metrics not ok" }]
  else if metrics.count = 0 then
    []
  else
    (if metrics.latency_p95_ms > t.latency_p95_ms then
      [{ severity := "MED", type := "LATENCY_P95",
         value := some metrics.latency_p95_ms, threshold := some t.latency_p95_ms }]
     else []) ++
    (if metrics.drop_rate > t.drop_rate then
      [{ severity := "HIGH", type := "DROP_RATE",
         value := some metrics.drop_rate, threshold := some t.drop_rate }]
     else []) ++
    (if metrics.avg_link_quality < t.min_link_quality then
      [{ severity := "MED", type := "LINK_QUALITY",
         value := some metrics.avg_link_quality, threshold := some t.min_link_quality }]
     else [])

/-! ## Aggregator: statistics and the `/metrics` handler -/

/-- Ascending insertion into a sorted list (helper for `sortAsc`). -/
def insertAsc (x : ℚ) : List ℚ → List ℚ
  | [] => [x]
  | y :: ys => if x ≤ y then x :: y :: ys else y :: insertAsc x ys

/-- Ascending sort, modelling `std::sort(v.begin(), v.end())` on doubles. -/
def sortAsc (v : List ℚ) : List ℚ := v.foldr insertAsc []

/-- The fractional index `(p / 100.0) * (v.size() - 1)` of `percentile`. -/
def fracIdx (n : Nat) (p : ℚ) : ℚ := (p / 100) * ((n : ℚ) - 1)

/-- The integer index `static_cast<std::size_t>(idx)` of `percentile`
(truncation towards zero of a non-negative double is the floor). -/
def pIdx (n : Nat) (p : ℚ) : Nat := (Int.floor (fracIdx n p)).toNat

/-- Function percentile from `src/services/aggregator/main.cpp`: empty input gives
0.0; otherwise sort, take the floor of the fractional index, and linearly
interpolate with the next element when it exists. -/
def percentile (v : List ℚ) (p : ℚ) : ℚ :=
  if v = [] then 0
  else
    let s := sortAsc v
    let i := pIdx s.length p
    let frac := fracIdx s.length p - (i : ℚ)
    if i + 1 < s.length then s.getD i 0 * (1 - frac) + s.getD (i + 1) 0 * frac
    else s.getD i 0

/-- One row returned by `SqliteRO::select_rows` (the per-sample columns the
aggregator reads from the telemetry table). -/
structure Row where
  latency_ms : ℚ
  dropped : Int
  sent : Int
  link_quality : ℚ
deriving Repr, DecidableEq

/-- Accumulated `sum_dropped` of the `/metrics` handler loop. -/
def sumDropped (rows : List Row) : Int := rows.foldl (fun a r => a + r.dropped) 0

/-- Accumulated `sum_sent` of the `/metrics` handler loop. -/
def sumSent (rows : List Row) : Int := rows.foldl (fun a r => a + r.sent) 0

/-- Accumulated `sum_lq` of the `/metrics` handler loop. -/
def sumLq (rows : List Row) : ℚ := rows.foldl (fun a r => a + r.link_quality) 0

/-- The JSON body built by the aggregator `/metrics` handler on a successful
query: the success flag, echoed identifiers, the row count, the drop rate,
the two latency percentiles and the mean link quality. -/
def metricsFor (sat_id : String) (window_s : Int) (rows : List Row) : Metrics :=
  let lat := rows.map Row.latency_ms
  { ok := some true
    sat_id := sat_id
    window_s := window_s
    count := (rows.length : Int)
    drop_rate := if 0 < sumSent rows then (sumDropped rows : ℚ) / (sumSent rows : ℚ) else 0
    latency_p50_ms := percentile lat 50
    latency_p95_ms := percentile lat 95
    avg_link_quality := if rows ≠ [] then sumLq rows / (rows.length : ℚ) else 0 }

/-! ## Controlplane: poller state machine and config handlers -/

/-- Lookup in an association list keyed by `String`, modelling
`unordered_map::count` / `operator[]` reads. -/
def lookupKV {α : Type} (k : String) : List (String × α) → Option α
  | [] => none
  | (k', v) :: rest => if k' = k then some v else lookupKV k rest

/-- Insert-or-assign in an association list, modelling
`unordered_map::operator[] = v`. -/
def setKV {α : Type} (k : String) (v : α) : List (String × α) → List (String × α)
  | [] => [(k, v)]
  | (k', v') :: rest => if k' = k then (k, v) :: rest else (k', v') :: setKV k v rest

/-- Increment the per-type alert counter `g_alert_type_counts[type]++` for
every alert in the list (every alert the code builds has a string type). -/
def bumpCounts : List Alert → List (String × Nat) → List (String × Nat)
  | [], counts => counts
  | a :: rest, counts =>
      bumpCounts rest (setKV a.type ((lookupKV a.type counts).getD 0 + 1) counts)

/-- Mutable controlplane state touched by one poller iteration: the two poll
counters and the three maps guarded by `g_state_mu` / `g_alert_mu`. -/
structure PollState where
  cycles : Nat
  failures : Nat
  lastMetrics : List (String × Metrics)
  lastAlerts : List (String × List Alert)
  alertCounts : List (String × Nat)
deriving Repr, DecidableEq

/-- Outcome of `agg.Get("/metrics?...")` for one entity: no response at all,
or a response with an HTTP status and a body that either parses into a
metrics object or fails `json::parse` (`none`). -/
inductive FetchOutcome
  | noResponse
  | response (status : Nat) (body : Option Metrics)

/-- The conditions under which the poller counts a fetch as failed:
`!r || r->status != 200` or a body that does not parse. -/
def fetchFails : FetchOutcome → Prop
  | .noResponse => True
  | .response status body => status ≠ 200 ∨ body = none

/-- The body of the per-entity loop of the `poller` thread: on fetch failure
increment `g_poll_failures` and `continue`; on success evaluate alerts, store
the `{metrics, alerts}` pair for the entity, and bump per-type counters. -/
def poll_entity (t : Thresholds) (sat : String) (f : FetchOutcome)
    (st : PollState) : PollState :=
  match f with
  | .noResponse => { st with failures := st.failures + 1 }
  | .response status body =>
    if status ≠ 200 then { st with failures := st.failures + 1 }
    else
      match body with
      | none => { st with failures := st.failures + 1 }
      | some m =>
        let alerts := eval_alerts m t
        { st with
          lastMetrics := setKV sat m st.lastMetrics
          lastAlerts := setKV sat alerts st.lastAlerts
          alertCounts := bumpCounts alerts st.alertCounts }

/-- One tick of the `poller` loop: increment `g_poll_cycles`, then process
each watched entity in order with the copied thresholds; `env` gives the
fetch outcome of each entity during this tick. -/
def poll_tick (t : Thresholds) (sats : List String) (env : String → FetchOutcome)
    (st : PollState) : PollState :=
  sats.foldl (fun s sat => poll_entity t sat (env sat) s)
    { st with cycles := st.cycles + 1 }

/-- A run of N consecutive completed ticks, one fetch environment per tick. -/
def poll_ticks (t : Thresholds) (sats : List String)
    (envs : List (String → FetchOutcome)) (st : PollState) : PollState :=
  envs.foldl (fun s env => poll_tick t sats env s) st

/-- A parsed JSON array element of the `"sats"` field: a string or any
other JSON value (the handler keeps only the strings). -/
inductive JVal
  | str (s : String)
  | other
deriving Repr, DecidableEq

/-- Response summary of a config-mutating handler: HTTP status and the
`"ok"` field of the body. -/
structure Resp where
  status : Nat
  ok : Bool
deriving Repr, DecidableEq

/-- The `POST /watched` handler: `body = none` models a request whose JSON
fails to parse or has no `"sats"` array; otherwise the handler keeps the
string elements, rejects an empty result with 400 leaving the list as it
was, and else replaces the whole watched list. -/
def post_watched (body : Option (List JVal)) (watched : List String) :
    Resp × List String :=
  match body with
  | none => (⟨400, false⟩, watched)
  | some items =>
    let next := items.filterMap (fun x => match x with | .str s => some s | .other => none)
    if next = [] then (⟨400, false⟩, watched)
    else (⟨200, true⟩, next)

/-- A parsed, well-typed `POST /config` body: each threshold field either
present with a value or absent. -/
structure PartialThresholds where
  latency_p95_ms : Option ℚ
  drop_rate : Option ℚ
  min_link_quality : Option ℚ
  window_s : Option Int
deriving Repr, DecidableEq

/-- The merge performed by the `POST /config` handler: each of the four
`if (j.contains(...)) thresholds.x = ...` assignments in sequence. -/
def merge_thresholds (cur : Thresholds) (p : PartialThresholds) : Thresholds :=
  let c1 := match p.latency_p95_ms with
    | some v => { cur with latency_p95_ms := v }
    | none => cur
  let c2 := match p.drop_rate with
    | some v => { c1 with drop_rate := v }
    | none => c1
  let c3 := match p.min_link_quality with
    | some v => { c2 with min_link_quality := v }
    | none => c2
  match p.window_s with
  | some v => { c3 with window_s := v }
  | none => c3

/-! ## Ingest: validation, insertion and the `POST /telemetry` handler -/

/-- The typed payload of one telemetry event (the columns of the `telemetry`
table apart from the primary key). -/
structure EventRow where
  sat_id : String
  ts_ms : Int
  latency_ms : ℚ
  dropped_packets : Int
  sent_packets : Int
  link_quality : ℚ
deriving Repr, DecidableEq

/-- Function validate_event from `src/services/ingest/main.cpp`, on a body whose
fields are present and well-typed: non-empty ids, `sent_packets > 0`,
`0 ≤ dropped_packets ≤ sent_packets`, `link_quality ∈ [0,1]`. -/
def validate_event (event_id : String) (r : EventRow) : Bool :=
  event_id ≠ "" && r.sat_id ≠ "" &&
  decide (0 < r.sent_packets) &&
  decide (0 ≤ r.dropped_packets) && decide (r.dropped_packets ≤ r.sent_packets) &&
  decide (0 ≤ r.link_quality) && decide (r.link_quality ≤ 1)

/-- Method Sqlite::insert_event: `INSERT OR IGNORE` keyed on the `event_id`
primary key leaves an existing row untouched and reports whether a row was
actually inserted (`sqlite3_changes(db) > 0`). -/
def insert_event (db : List (String × EventRow)) (event_id : String)
    (r : EventRow) : List (String × EventRow) × Bool :=
  match lookupKV event_id db with
  | some _ => (db, false)
  | none => (setKV event_id r db, true)

/-- Ingest service state: the telemetry table plus the two ingest counters. -/
structure IngestState where
  db : List (String × EventRow)
  inserted_total : Nat
  duplicates_total : Nat
deriving Repr, DecidableEq

/-- Response of `POST /telemetry`: HTTP status, the `"ok"` field, and the
`"inserted"` field when present. -/
structure IngestResp where
  status : Nat
  ok : Bool
  inserted : Option Bool
deriving Repr, DecidableEq

/-- The `POST /telemetry` handler on a parsed, well-typed body: reject
invalid events with 400 and no state change; otherwise insert-or-ignore,
increment exactly one of the two counters, and answer 202 with the
`inserted` flag. -/
def post_telemetry (st : IngestState) (event_id : String) (r : EventRow) :
    IngestState × IngestResp :=
  if validate_event event_id r then
    let res := insert_event st.db event_id r
    ({ db := res.1
       inserted_total := st.inserted_total + (if res.2 then 1 else 0)
       duplicates_total := st.duplicates_total + (if res.2 then 0 else 1) },
     ⟨202, true, some res.2⟩)
  else (st, ⟨400, false, none⟩)

/-! ## Spec-side definition for the percentile refinement claim -/

/-- Modelled from the spec: "sort ascending, compute fractional index =
p/100 × (n−1), linearly interpolate between the two bracketing elements" —
the bracketing positions of the fractional index `x` are `⌊x⌋` and `⌈x⌉`,
weighted by the fractional part. -/
def percentileSpec (v : List ℚ) (p : ℚ) : ℚ :=
  if v = [] then 0
  else
    let s := sortAsc v
    let x := fracIdx s.length p
    let lo := (Int.floor x).toNat
    let hi := (Int.ceil x).toNat
    let frac := x - ((Int.floor x : Int) : ℚ)
    s.getD lo 0 * (1 - frac) + s.getD hi 0 * frac

/-- The latency alert object built by the first threshold check. -/
def latencyAlert (m : Metrics) (t : Thresholds) : Alert :=
  { severity := "MED", type := "LATENCY_P95",
    value := some m.latency_p95_ms, threshold := some t.latency_p95_ms }

/-- The drop-rate alert object built by the second threshold check. -/
def dropAlert (m : Metrics) (t : Thresholds) : Alert :=
  { severity := "HIGH", type := "DROP_RATE",
    value := some m.drop_rate, threshold := some t.drop_rate }

/-- The link-quality alert object built by the third threshold check. -/
def linkAlert (m : Metrics) (t : Thresholds) : Alert :=
  { severity := "MED", type := "LINK_QUALITY",
    value := some m.avg_link_quality, threshold := some t.min_link_quality }

/-- The failure alert object built by the first branch of `eval_alerts`. -/
def failureAlert : Alert :=
  { severity := "HIGH", type := "AGGREGATOR_ERROR", message := some "metrics not ok" }

/-- A snapshot whose fetch failed, used as concrete input for the first claim. -/
def mFail : Metrics :=
  { ok := some false, sat_id := "SAT-001", window_s := 600, count := 3,
    drop_rate := 0, latency_p50_ms := 0, latency_p95_ms := 0, avg_link_quality := 1 }

/-! ## Theorems -/

/-- C1, as stated, is false: on a snapshot with a false success flag the code
emits the alert type string AGGREGATOR_ERROR, not SOURCE_UNAVAILABLE. -/
theorem C1_counterexample :
    mFail.ok = some false ∧
    ¬ ∃ a : Alert, eval_alerts mFail Thresholds.default = [a] ∧
        a.severity = "HIGH" ∧ a.type = "SOURCE_UNAVAILABLE" := by
  refine ⟨rfl, ?_⟩
  rintro ⟨a, ha, -, hty⟩
  have hev : eval_alerts mFail Thresholds.default = [failureAlert] := by
    simp [eval_alerts, mFail, failureAlert]
  rw [hev] at ha
  have : a = failureAlert := by
    have h2 := List.cons.inj ha
    exact h2.1.symm
  subst this
  exact absurd hty (by decide)

/-- C1 (amended): for every snapshot whose success flag is false and every
thresholds value, the evaluator returns exactly one alert, with severity HIGH
and type AGGREGATOR_ERROR, and no threshold-check alert (LATENCY_P95,
DROP_RATE or LINK_QUALITY) appears in the result. -/
theorem C1_fetch_failed_single_alert (m : Metrics) (t : Thresholds)
    (h : m.ok = some false) :
    eval_alerts m t = [failureAlert] ∧
    failureAlert.severity = "HIGH" ∧ failureAlert.type = "AGGREGATOR_ERROR" ∧
    ∀ a ∈ eval_alerts m t,
      a.type ≠ "LATENCY_P95" ∧ a.type ≠ "DROP_RATE" ∧ a.type ≠ "LINK_QUALITY" := by
  have hev : eval_alerts m t = [failureAlert] := by
    simp [eval_alerts, h, failureAlert]
  refine ⟨hev, rfl, rfl, ?_⟩
  intro a ha
  rw [hev] at ha
  have : a = failureAlert := by simpa using ha
  subst this
  exact ⟨by decide, by decide, by decide⟩

/-- Witness for the amended C1 at a concrete failed snapshot. -/
theorem C1_witness :
    mFail.ok = some false ∧
    eval_alerts mFail Thresholds.default = [failureAlert] :=
  ⟨rfl, (C1_fetch_failed_single_alert mFail Thresholds.default rfl).1⟩

/-- C4: for every snapshot with a true success flag and a zero sample count,
the evaluator returns the empty list, for every thresholds value. -/
theorem C4_zero_samples_no_alerts (m : Metrics) (t : Thresholds)
    (hok : m.ok = some true) (hc : m.count = 0) :
    eval_alerts m t = [] := by
  simp [eval_alerts, hok, hc]

/-- Witness for C4 at a concrete empty snapshot. -/
theorem C4_witness :
    eval_alerts
      { ok := some true, sat_id := "SAT-002", window_s := 600, count := 0,
        drop_rate := 1, latency_p50_ms := 900, latency_p95_ms := 900,
        avg_link_quality := 0 } Thresholds.default = [] :=
  C4_zero_samples_no_alerts _ Thresholds.default rfl rfl

/-- A conditional singleton is a sublist of the corresponding singleton. -/
theorem ite_singleton_sublist {α : Type} (c : Prop) [Decidable c] (x : α) :
    List.Sublist (if c then [x] else []) [x] := by
  split
  · exact List.Sublist.refl _
  · exact List.nil_sublist _

/-- On a healthy snapshot with samples, `eval_alerts` is exactly the three
independent checks appended in order. -/
theorem eval_alerts_healthy (m : Metrics) (t : Thresholds)
    (hok : m.ok = some true) (hc : 0 < m.count) :
    eval_alerts m t =
      (if m.latency_p95_ms > t.latency_p95_ms then [latencyAlert m t] else []) ++
      (if m.drop_rate > t.drop_rate then [dropAlert m t] else []) ++
      (if m.avg_link_quality < t.min_link_quality then [linkAlert m t] else []) := by
  have hne : m.count ≠ 0 := by omega
  simp [eval_alerts, hok, hne, latencyAlert, dropAlert, linkAlert]

/-- C3: on every snapshot with a true success flag and positive sample count,
the evaluator applies the three checks independently — each fires exactly when
its comparison holds, each produced alert carries the observed value and the
threshold with the specified severity — at most three alerts result, and the
output order is always LATENCY_P95, DROP_RATE, LINK_QUALITY. -/
theorem C3_threshold_checks (m : Metrics) (t : Thresholds)
    (hok : m.ok = some true) (hc : 0 < m.count) :
    (eval_alerts m t =
      (if m.latency_p95_ms > t.latency_p95_ms then [latencyAlert m t] else []) ++
      (if m.drop_rate > t.drop_rate then [dropAlert m t] else []) ++
      (if m.avg_link_quality < t.min_link_quality then [linkAlert m t] else [])) ∧
    (latencyAlert m t ∈ eval_alerts m t ↔ m.latency_p95_ms > t.latency_p95_ms) ∧
    (dropAlert m t ∈ eval_alerts m t ↔ m.drop_rate > t.drop_rate) ∧
    (linkAlert m t ∈ eval_alerts m t ↔ m.avg_link_quality < t.min_link_quality) ∧
    (eval_alerts m t).length ≤ 3 ∧
    List.Sublist (eval_alerts m t)
      [latencyAlert m t, dropAlert m t, linkAlert m t] := by
  have hmain := eval_alerts_healthy m t hok hc
  have hlat_ne_drop : latencyAlert m t ≠ dropAlert m t := by
    simp [latencyAlert, dropAlert, Alert.mk.injEq]
  have hlat_ne_link : latencyAlert m t ≠ linkAlert m t := by
    simp [latencyAlert, linkAlert, Alert.mk.injEq]
  have hdrop_ne_link : dropAlert m t ≠ linkAlert m t := by
    simp [dropAlert, linkAlert, Alert.mk.injEq]
  refine ⟨hmain, ?_, ?_, ?_, ?_, ?_⟩
  · rw [hmain]
    by_cases h1 : m.latency_p95_ms > t.latency_p95_ms <;>
      by_cases h2 : m.drop_rate > t.drop_rate <;>
      by_cases h3 : m.avg_link_quality < t.min_link_quality <;>
      simp [h1, h2, h3, hlat_ne_drop, hlat_ne_link]
  · rw [hmain]
    by_cases h1 : m.latency_p95_ms > t.latency_p95_ms <;>
      by_cases h2 : m.drop_rate > t.drop_rate <;>
      by_cases h3 : m.avg_link_quality < t.min_link_quality <;>
      simp [h1, h2, h3, hlat_ne_drop.symm, hdrop_ne_link]
  · rw [hmain]
    by_cases h1 : m.latency_p95_ms > t.latency_p95_ms <;>
      by_cases h2 : m.drop_rate > t.drop_rate <;>
      by_cases h3 : m.avg_link_quality < t.min_link_quality <;>
      simp [h1, h2, h3, hlat_ne_link.symm, hdrop_ne_link.symm]
  · rw [hmain]
    by_cases h1 : m.latency_p95_ms > t.latency_p95_ms <;>
      by_cases h2 : m.drop_rate > t.drop_rate <;>
      by_cases h3 : m.avg_link_quality < t.min_link_quality <;>
      simp [h1, h2, h3]
  · rw [hmain]
    have hsub :
        List.Sublist
          ((if m.latency_p95_ms > t.latency_p95_ms then [latencyAlert m t] else []) ++
           (if m.drop_rate > t.drop_rate then [dropAlert m t] else []) ++
           (if m.avg_link_quality < t.min_link_quality then [linkAlert m t] else []))
          ([latencyAlert m t] ++ [dropAlert m t] ++ [linkAlert m t]) :=
      ((ite_singleton_sublist _ _).append (ite_singleton_sublist _ _)).append
        (ite_singleton_sublist _ _)
    simpa using hsub

/-- Witness for C3: the testable property of the spec — a snapshot with p95 =
250 against a latency threshold of 200 yields exactly the single MED
LATENCY_P95 alert with value 250 and threshold 200. -/
theorem C3_witness :
    eval_alerts
      { ok := some true, sat_id := "SAT-003", window_s := 600, count := 5,
        drop_rate := 0, latency_p50_ms := 100, latency_p95_ms := 250,
        avg_link_quality := 1 }
      { latency_p95_ms := 200, drop_rate := 1, min_link_quality := 0, window_s := 600 } =
      [{ severity := "MED", type := "LATENCY_P95",
         value := some 250, threshold := some 200 }] := by
  have h := (C3_threshold_checks
    { ok := some true, sat_id := "SAT-003", window_s := 600, count := 5,
      drop_rate := 0, latency_p50_ms := 100, latency_p95_ms := 250,
      avg_link_quality := 1 }
    { latency_p95_ms := 200, drop_rate := 1, min_link_quality := 0, window_s := 600 }
    rfl (by decide)).1
  rw [h]
  norm_num [latencyAlert]

/-- C6: the drop rate computed by the aggregator equals the quotient of the
dropped and sent sums when the sent sum is positive, and is zero when the
sent sum is zero, regardless of the dropped counts. -/
theorem C6_drop_rate (sat_id : String) (window_s : Int) (rows : List Row) :
    (0 < sumSent rows →
      (metricsFor sat_id window_s rows).drop_rate =
        (sumDropped rows : ℚ) / (sumSent rows : ℚ)) ∧
    (sumSent rows = 0 → (metricsFor sat_id window_s rows).drop_rate = 0) := by
  constructor
  · intro h
    simp [metricsFor, h]
  · intro h
    simp [metricsFor, h]

/-- Witness for C6: one row with positive sent count, and a row whose sent
count sums to zero but whose dropped count is nonzero. -/
theorem C6_witness :
    (0 < sumSent [{ latency_ms := 5, dropped := 1, sent := 10, link_quality := 1 }]) ∧
    (metricsFor "SAT-001" 600
        [{ latency_ms := 5, dropped := 1, sent := 10, link_quality := 1 }]).drop_rate =
      (sumDropped [{ latency_ms := 5, dropped := 1, sent := 10, link_quality := 1 }] : ℚ) /
      (sumSent [{ latency_ms := 5, dropped := 1, sent := 10, link_quality := 1 }] : ℚ) ∧
    (metricsFor "SAT-001" 600
        [{ latency_ms := 5, dropped := 7, sent := 0, link_quality := 1 }]).drop_rate = 0 :=
  ⟨by decide,
   (C6_drop_rate "SAT-001" 600 _).1 (by decide),
   (C6_drop_rate "SAT-001" 600 _).2 (by decide)⟩

/-- C7: replacing the watch-list with an empty list answers 400 with a false
ok flag and leaves the prior list unchanged, while a non-empty list of
strings atomically replaces the whole list with a 200 response. -/
theorem C7_replace_watchlist (watched : List String) (strs : List String)
    (hne : strs ≠ []) :
    post_watched (some []) watched = (⟨400, false⟩, watched) ∧
    post_watched (some (strs.map JVal.str)) watched = (⟨200, true⟩, strs) := by
  constructor
  · simp [post_watched]
  · have hmap : (strs.map JVal.str).filterMap
        (fun x => match x with | .str s => some s | .other => none) = strs := by
      rw [List.filterMap_map]
      have hcomp : ((fun x => match x with | JVal.str s => some s | JVal.other => none)
          ∘ JVal.str) = some := by
        funext s
        rfl
      rw [hcomp, List.filterMap_some]
    simp [post_watched, hmap, hne]

/-- Witness for C7 on a concrete prior list and replacement. -/
theorem C7_witness :
    post_watched (some []) ["SAT-001", "SAT-002"] = (⟨400, false⟩, ["SAT-001", "SAT-002"]) ∧
    post_watched (some [JVal.str "SAT-009"]) ["SAT-001", "SAT-002"] =
      (⟨200, true⟩, ["SAT-009"]) :=
  C7_replace_watchlist ["SAT-001", "SAT-002"] ["SAT-009"] (by decide)

/-- C8: the config merge overwrites exactly the fields present in the request
and every absent field retains its prior value, for each of the four
threshold fields. -/
theorem C8_merge_thresholds (cur : Thresholds) (p : PartialThresholds) :
    ((∀ v, p.latency_p95_ms = some v → (merge_thresholds cur p).latency_p95_ms = v) ∧
     (p.latency_p95_ms = none →
        (merge_thresholds cur p).latency_p95_ms = cur.latency_p95_ms)) ∧
    ((∀ v, p.drop_rate = some v → (merge_thresholds cur p).drop_rate = v) ∧
     (p.drop_rate = none → (merge_thresholds cur p).drop_rate = cur.drop_rate)) ∧
    ((∀ v, p.min_link_quality = some v →
        (merge_thresholds cur p).min_link_quality = v) ∧
     (p.min_link_quality = none →
        (merge_thresholds cur p).min_link_quality = cur.min_link_quality)) ∧
    ((∀ v, p.window_s = some v → (merge_thresholds cur p).window_s = v) ∧
     (p.window_s = none → (merge_thresholds cur p).window_s = cur.window_s)) := by
  obtain ⟨a, b, c, d⟩ := p
  cases a <;> cases b <;> cases c <;> cases d <;>
    simp [merge_thresholds]

/-- Witness for C8: a partial update carrying only a latency threshold and a
window rewrites those two fields and preserves the other two. -/
theorem C8_witness :
    ({ latency_p95_ms := some 300, drop_rate := none, min_link_quality := none,
       window_s := some 120 } : PartialThresholds).drop_rate = none ∧
    (merge_thresholds ⟨200, 1, 0, 600⟩
      { latency_p95_ms := some 300, drop_rate := none, min_link_quality := none,
        window_s := some 120 }).latency_p95_ms = 300 ∧
    (merge_thresholds ⟨200, 1, 0, 600⟩
      { latency_p95_ms := some 300, drop_rate := none, min_link_quality := none,
        window_s := some 120 }).drop_rate = (⟨200, 1, 0, 600⟩ : Thresholds).drop_rate ∧
    (merge_thresholds ⟨200, 1, 0, 600⟩
      { latency_p95_ms := some 300, drop_rate := none, min_link_quality := none,
        window_s := some 120 }).window_s = 120 :=
  ⟨rfl,
   (C8_merge_thresholds ⟨200, 1, 0, 600⟩ _).1.1 300 rfl,
   (C8_merge_thresholds ⟨200, 1, 0, 600⟩ _).2.1.2 rfl,
   (C8_merge_thresholds ⟨200, 1, 0, 600⟩ _).2.2.2.1 120 rfl⟩

/-- C10: submitting a valid telemetry event whose event id already exists in
the store leaves the table unchanged (the original row wins), still answers
202 with a true ok flag, reports inserted = false, and increments the
duplicates counter while the inserted counter is unchanged. -/
theorem C10_duplicate_event (st : IngestState) (event_id : String)
    (r r0 : EventRow)
    (hvalid : validate_event event_id r = true)
    (hdup : lookupKV event_id st.db = some r0) :
    post_telemetry st event_id r =
      ({ db := st.db, inserted_total := st.inserted_total,
         duplicates_total := st.duplicates_total + 1 }, ⟨202, true, some false⟩) ∧
    lookupKV event_id (post_telemetry st event_id r).1.db = some r0 := by
  have hins : insert_event st.db event_id r = (st.db, false) := by
    simp [insert_event, hdup]
  constructor
  · simp [post_telemetry, hvalid, hins]
  · simp [post_telemetry, hvalid, hins, hdup]

/-- The row first stored under event id EV-1 in the duplicate-submission
witness. -/
def evOld : EventRow :=
  { sat_id := "SAT-001", ts_ms := 1000, latency_ms := 12, dropped_packets := 0,
    sent_packets := 8, link_quality := 1 }

/-- The differing row re-submitted under the same event id in the
duplicate-submission witness. -/
def evNew : EventRow :=
  { sat_id := "SAT-001", ts_ms := 2000, latency_ms := 99, dropped_packets := 1,
    sent_packets := 4, link_quality := 1 }

/-- Ingest state already holding EV-1 in the duplicate-submission witness. -/
def ingest0 : IngestState :=
  { db := [("EV-1", evOld)], inserted_total := 1, duplicates_total := 0 }

/-- Witness for C10: re-submitting an event id already stored with different
field values succeeds, reports a duplicate and keeps the original row. -/
theorem C10_witness :
    validate_event "EV-1" evNew = true ∧
    lookupKV "EV-1" ingest0.db = some evOld ∧
    post_telemetry ingest0 "EV-1" evNew =
      ({ db := [("EV-1", evOld)], inserted_total := 1, duplicates_total := 1 },
       ⟨202, true, some false⟩) :=
  ⟨by decide, by decide,
   (C10_duplicate_event ingest0 "EV-1" evNew evOld (by decide) (by decide)).1⟩

/-- A failed fetch changes the poll state only by incrementing the failure
counter. -/
theorem poll_entity_fail (t : Thresholds) (sat : String) (f : FetchOutcome)
    (st : PollState) (hf : fetchFails f) :
    poll_entity t sat f st = { st with failures := st.failures + 1 } := by
  cases f with
  | noResponse => rfl
  | response status body =>
    rcases hf with hs | hb
    · simp [poll_entity, hs]
    · subst hb
      by_cases hs : status ≠ 200
      · simp [poll_entity, hs]
      · simp [poll_entity, hs]

/-- Processing one entity never decreases the failure counter. -/
theorem poll_entity_failures_le (t : Thresholds) (sat : String)
    (f : FetchOutcome) (st : PollState) :
    st.failures ≤ (poll_entity t sat f st).failures := by
  cases f with
  | noResponse => simp [poll_entity]
  | response status body =>
    by_cases hs : status ≠ 200
    · simp [poll_entity, hs]
    · cases body with
      | none => simp [poll_entity, hs]
      | some m => simp [poll_entity, hs]

/-- Overwriting one key of an association list leaves the lookup of every
other key unchanged. -/
theorem lookupKV_setKV_ne {α : Type} (k j : String) (v : α)
    (l : List (String × α)) (h : j ≠ k) :
    lookupKV k (setKV j v l) = lookupKV k l := by
  induction l with
  | nil => simp [setKV, lookupKV, h]
  | cons hd tl ih =>
    obtain ⟨a, b⟩ := hd
    by_cases ha : a = j
    · subst ha
      simp [setKV, lookupKV, h]
    · simp [setKV, lookupKV, ha, ih]

/-- If the fetch of entity `sat` fails in this tick, processing any entity
leaves the stored metrics and alerts of `sat` unchanged. -/
theorem poll_entity_preserves_entry (t : Thresholds) (sat sat2 : String)
    (env : String → FetchOutcome) (st : PollState)
    (hf : fetchFails (env sat)) :
    lookupKV sat (poll_entity t sat2 (env sat2) st).lastMetrics =
      lookupKV sat st.lastMetrics ∧
    lookupKV sat (poll_entity t sat2 (env sat2) st).lastAlerts =
      lookupKV sat st.lastAlerts := by
  by_cases heq : sat2 = sat
  · subst heq
    rw [poll_entity_fail t sat2 (env sat2) st hf]
    exact ⟨rfl, rfl⟩
  · cases henv : env sat2 with
    | noResponse => exact ⟨rfl, rfl⟩
    | response status body =>
      by_cases hs : status ≠ 200
      · simp [poll_entity, hs]
      · cases body with
        | none => simp [poll_entity, hs]
        | some m =>
          simp only [poll_entity, hs, if_false, ite_not, if_true, ite_false, if_neg]
          constructor
          · exact lookupKV_setKV_ne sat sat2 m st.lastMetrics heq
          · exact lookupKV_setKV_ne sat sat2 _ st.lastAlerts heq

/-- Folding the per-entity step over a list of entities never decreases the
failure counter. -/
theorem foldl_entities_failures_le (t : Thresholds) (env : String → FetchOutcome) :
    ∀ (l : List String) (st : PollState),
      st.failures ≤ (l.foldl (fun s sat => poll_entity t sat (env sat) s) st).failures := by
  intro l
  induction l with
  | nil => intro st; exact le_rfl
  | cons a rest ih =>
    intro st
    exact le_trans (poll_entity_failures_le t a (env a) st) (ih _)

/-- If some member of the entity list fails to fetch, the fold increments the
failure counter at least once. -/
theorem foldl_entities_failures_succ (t : Thresholds) (env : String → FetchOutcome)
    (sat : String) (hf : fetchFails (env sat)) :
    ∀ (l : List String) (st : PollState), sat ∈ l →
      st.failures + 1 ≤
        (l.foldl (fun s sat2 => poll_entity t sat2 (env sat2) s) st).failures := by
  intro l
  induction l with
  | nil => intro st hmem; exact absurd hmem (List.not_mem_nil sat)
  | cons a rest ih =>
    intro st hmem
    rcases List.mem_cons.mp hmem with heq | hmem2
    · subst heq
      have hstep : poll_entity t sat (env sat) st =
          { st with failures := st.failures + 1 } :=
        poll_entity_fail t sat (env sat) st hf
      calc st.failures + 1
          = (poll_entity t sat (env sat) st).failures := by rw [hstep]
        _ ≤ _ := foldl_entities_failures_le t env rest _
    · calc st.failures + 1
          ≤ (poll_entity t a (env a) st).failures + 1 :=
            Nat.succ_le_succ (poll_entity_failures_le t a (env a) st)
        _ ≤ _ := by
            have := ih (poll_entity t a (env a) st) hmem2
            simpa using this

/-- If the fetch of `sat` fails in this tick, folding the per-entity step over
any entity list leaves the stored entry of `sat` unchanged. -/
theorem foldl_entities_preserves_entry (t : Thresholds)
    (env : String → FetchOutcome) (sat : String) (hf : fetchFails (env sat)) :
    ∀ (l : List String) (st : PollState),
      lookupKV sat ((l.foldl (fun s sat2 => poll_entity t sat2 (env sat2) s) st).lastMetrics) =
        lookupKV sat st.lastMetrics ∧
      lookupKV sat ((l.foldl (fun s sat2 => poll_entity t sat2 (env sat2) s) st).lastAlerts) =
        lookupKV sat st.lastAlerts := by
  intro l
  induction l with
  | nil => intro st; exact ⟨rfl, rfl⟩
  | cons a rest ih =>
    intro st
    have hstep := poll_entity_preserves_entry t sat a env st hf
    have hrest := ih (poll_entity t a (env a) st)
    exact ⟨hrest.1.trans hstep.1, hrest.2.trans hstep.2⟩

/-- One tick on a watch-list containing a failing entity adds at least one
failure and keeps the stored entry of that entity. -/
theorem poll_tick_fail (t : Thresholds) (sats : List String)
    (env : String → FetchOutcome) (sat : String) (st : PollState)
    (hmem : sat ∈ sats) (hf : fetchFails (env sat)) :
    st.failures + 1 ≤ (poll_tick t sats env st).failures ∧
    lookupKV sat (poll_tick t sats env st).lastMetrics = lookupKV sat st.lastMetrics ∧
    lookupKV sat (poll_tick t sats env st).lastAlerts = lookupKV sat st.lastAlerts := by
  unfold poll_tick
  refine ⟨?_, ?_, ?_⟩
  · exact foldl_entities_failures_succ t env sat hf sats
      { st with cycles := st.cycles + 1 } hmem
  · exact (foldl_entities_preserves_entry t env sat hf sats
      { st with cycles := st.cycles + 1 }).1
  · exact (foldl_entities_preserves_entry t env sat hf sats
      { st with cycles := st.cycles + 1 }).2

/-- C2: during a poll tick any entity whose metrics fetch fails (unreachable
aggregator, non-200 status, or unparseable body) only increments the failure
counter and leaves the stored snapshot/alerts pair of that entity untouched;
after N completed ticks in which a watched entity always fails to fetch, the
failure counter has grown by at least N and the stored entry of that entity
equals its value before those ticks. -/
theorem C2_stale_retention (t : Thresholds) (sats : List String) (sat : String)
    (envs : List (String → FetchOutcome)) (st : PollState)
    (hmem : sat ∈ sats) (hfail : ∀ e ∈ envs, fetchFails (e sat)) :
    (∀ f : FetchOutcome, fetchFails f →
       poll_entity t sat f st = { st with failures := st.failures + 1 }) ∧
    st.failures + envs.length ≤ (poll_ticks t sats envs st).failures ∧
    lookupKV sat (poll_ticks t sats envs st).lastMetrics =
      lookupKV sat st.lastMetrics ∧
    lookupKV sat (poll_ticks t sats envs st).lastAlerts =
      lookupKV sat st.lastAlerts := by
  refine ⟨fun f hf => poll_entity_fail t sat f st hf, ?_⟩
  induction envs generalizing st with
  | nil => simp [poll_ticks]
  | cons e rest ih =>
    have hfe : fetchFails (e sat) := hfail e (List.mem_cons_self e rest)
    have hrest : ∀ e2 ∈ rest, fetchFails (e2 sat) := fun e2 h2 =>
      hfail e2 (List.mem_cons_of_mem e h2)
    have htick := poll_tick_fail t sats e sat st hmem hfe
    have hticks := ih (poll_tick t sats e st) hrest
    have hps : poll_ticks t sats (e :: rest) st =
        poll_ticks t sats rest (poll_tick t sats e st) := rfl
    refine ⟨?_, ?_, ?_⟩
    · rw [hps]
      have h1 := htick.1
      have h2 := hticks.1
      have hlen : (e :: rest).length = rest.length + 1 := rfl
      omega
    · rw [hps, hticks.2.1, htick.2.1]
    · rw [hps, hticks.2.2, htick.2.2]

/-- Witness for C2: a two-tick run in which the single watched entity always
gets no response doubles the failure counter and leaves its (absent) stored
entry unchanged. -/
theorem C2_witness :
    ("SAT-001" ∈ ["SAT-001"]) ∧
    (⟨0, 0, [], [], []⟩ : PollState).failures +
        (List.replicate 2 (fun _ : String => FetchOutcome.noResponse)).length ≤
      (poll_ticks Thresholds.default ["SAT-001"]
        (List.replicate 2 (fun _ => FetchOutcome.noResponse))
        ⟨0, 0, [], [], []⟩).failures ∧
    lookupKV "SAT-001"
        (poll_ticks Thresholds.default ["SAT-001"]
          (List.replicate 2 (fun _ => FetchOutcome.noResponse))
          ⟨0, 0, [], [], []⟩).lastMetrics =
      lookupKV "SAT-001" (⟨0, 0, [], [], []⟩ : PollState).lastMetrics := by
  have h := C2_stale_retention Thresholds.default ["SAT-001"] "SAT-001"
    (List.replicate 2 (fun _ => FetchOutcome.noResponse)) ⟨0, 0, [], [], []⟩
    (by simp)
    (by
      intro e he
      rw [List.eq_of_mem_replicate he]
      trivial)
  exact ⟨by simp, h.2.1, h.2.2.1⟩

/-- Ascending insertion grows the length by one. -/
theorem length_insertAsc (x : ℚ) (l : List ℚ) :
    (insertAsc x l).length = l.length + 1 := by
  induction l with
  | nil => rfl
  | cons y ys ih =>
    by_cases h : x ≤ y
    · simp [insertAsc, h]
    · simp [insertAsc, h, ih]

/-- Sorting preserves the length of the sample list. -/
theorem length_sortAsc (v : List ℚ) : (sortAsc v).length = v.length := by
  induction v with
  | nil => rfl
  | cons y ys ih =>
    show (insertAsc y (sortAsc ys)).length = ys.length + 1
    rw [length_insertAsc, ih]

/-- The fractional index is non-negative for non-negative p. -/
theorem fracIdx_nonneg (n : Nat) (p : ℚ) (hn : 1 ≤ n) (h0 : 0 ≤ p) :
    0 ≤ fracIdx n p := by
  unfold fracIdx
  apply mul_nonneg
  · positivity
  · have h2 : (1 : ℚ) ≤ (n : ℚ) := by exact_mod_cast hn
    linarith

/-- The fractional index is at most n − 1 for p at most 100. -/
theorem fracIdx_le (n : Nat) (p : ℚ) (hn : 1 ≤ n) (h0 : 0 ≤ p) (h1 : p ≤ 100) :
    fracIdx n p ≤ (n : ℚ) - 1 := by
  unfold fracIdx
  have hp : p / 100 ≤ 1 := by
    rw [div_le_one (by norm_num : (0 : ℚ) < 100)]
    exact h1
  have hnn : (0 : ℚ) ≤ (n : ℚ) - 1 := by
    have h2 : (1 : ℚ) ≤ (n : ℚ) := by exact_mod_cast hn
    linarith
  calc (p / 100) * ((n : ℚ) - 1) ≤ 1 * ((n : ℚ) - 1) :=
        mul_le_mul_of_nonneg_right hp hnn
    _ = (n : ℚ) - 1 := one_mul _

/-- The floor of the fractional index lies between 0 and n − 1. -/
theorem floor_fracIdx_bounds (n : Nat) (p : ℚ) (hn : 1 ≤ n) (h0 : 0 ≤ p)
    (h1 : p ≤ 100) :
    0 ≤ Int.floor (fracIdx n p) ∧ Int.floor (fracIdx n p) ≤ (n : Int) - 1 := by
  constructor
  · exact Int.floor_nonneg.mpr (fracIdx_nonneg n p hn h0)
  · have h2 : fracIdx n p ≤ (((n : Int) - 1 : Int) : ℚ) := by
      push_cast
      exact fracIdx_le n p hn h0 h1
    calc Int.floor (fracIdx n p) ≤ Int.floor ((((n : Int) - 1 : Int) : ℚ)) :=
          Int.floor_le_floor h2
      _ = (n : Int) - 1 := Int.floor_intCast _

/-- The truncated index of percentile is at most n − 1. -/
theorem pIdx_le (n : Nat) (p : ℚ) (hn : 1 ≤ n) (h0 : 0 ≤ p) (h1 : p ≤ 100) :
    pIdx n p ≤ n - 1 := by
  have h := floor_fracIdx_bounds n p hn h0 h1
  unfold pIdx
  omega

/-- C9: for every non-empty sample list and p in [0,100], the integer index
computed by percentile is at most n − 1 and strictly below the length of the
sorted list, so both vector accesses of percentile are in bounds (the second
element is read only under the explicit guard i + 1 < n). -/
theorem C9_percentile_index_in_bounds (v : List ℚ) (p : ℚ)
    (hne : v ≠ []) (h0 : 0 ≤ p) (h1 : p ≤ 100) :
    pIdx (sortAsc v).length p ≤ v.length - 1 ∧
    pIdx (sortAsc v).length p < (sortAsc v).length := by
  have hn : 0 < v.length := List.length_pos.mpr hne
  have hlen : (sortAsc v).length = v.length := length_sortAsc v
  have hle := pIdx_le (sortAsc v).length p (by omega) h0 h1
  omega

/-- Witness for C9 on a concrete list and percentile rank. -/
theorem C9_witness :
    ([10, 20, 30] : List ℚ) ≠ [] ∧ (0 : ℚ) ≤ 95 ∧ (95 : ℚ) ≤ 100 ∧
    pIdx (sortAsc [10, 20, 30]).length 95 < (sortAsc [10, 20, 30]).length :=
  ⟨by decide, by decide, by decide,
   (C9_percentile_index_in_bounds [10, 20, 30] 95
     (by decide) (by decide) (by decide)).2⟩

/-- On non-empty input and p in [0,100], the code percentile coincides with
the spec reading (interpolation between the floor and ceiling positions of
the fractional index). -/
theorem percentile_eq_spec (v : List ℚ) (p : ℚ) (hne : v ≠ [])
    (h0 : 0 ≤ p) (h1 : p ≤ 100) :
    percentile v p = percentileSpec v p := by
  have hn : 1 ≤ (sortAsc v).length := by
    rw [length_sortAsc]
    exact List.length_pos.mpr hne
  simp only [percentile, percentileSpec, pIdx, if_neg hne]
  set s := sortAsc v with hs
  set x := fracIdx s.length p with hxdef
  set fl := Int.floor x with hfl
  have hx0 : 0 ≤ x := fracIdx_nonneg s.length p hn h0
  have hxle : x ≤ (s.length : ℚ) - 1 := fracIdx_le s.length p hn h0 h1
  have hbounds : 0 ≤ fl ∧ fl ≤ (s.length : Int) - 1 := by
    rw [hfl]
    exact floor_fracIdx_bounds s.length p hn h0 h1
  have hf0 : 0 ≤ fl := hbounds.1
  have hfle : fl ≤ (s.length : Int) - 1 := hbounds.2
  have hflle : (fl : ℚ) ≤ x := by
    rw [hfl]
    exact Int.floor_le x
  have hcast : ((fl.toNat : ℕ) : ℚ) = (fl : ℚ) := by
    exact_mod_cast Int.toNat_of_nonneg hf0
  rw [hcast]
  by_cases hbr : fl.toNat + 1 < s.length
  · rw [if_pos hbr]
    by_cases hfr : x - (fl : ℚ) = 0
    · rw [hfr]
      simp
    · have hlt : (fl : ℚ) < x :=
        lt_of_le_of_ne hflle (Ne.symm (sub_ne_zero.mp hfr))
      have hceil : Int.ceil x = fl + 1 := by
        refine le_antisymm ?_ ?_
        · calc Int.ceil x ≤ Int.floor x + 1 := Int.ceil_le_floor_add_one x
            _ = fl + 1 := by rw [hfl]
        · have h2 : fl < Int.ceil x := Int.lt_ceil.mpr hlt
          omega
      have htn : (Int.ceil x).toNat = fl.toNat + 1 := by omega
      rw [htn]
  · rw [if_neg hbr]
    have hfleq : fl = (s.length : Int) - 1 := by omega
    have hxeq : x = (s.length : ℚ) - 1 := by
      refine le_antisymm hxle ?_
      have h2 : ((fl : Int) : ℚ) ≤ x := hflle
      rw [hfleq] at h2
      push_cast at h2
      linarith
    have hfr : x - (fl : ℚ) = 0 := by
      rw [hxeq, hfleq]
      push_cast
      ring
    have hceil : Int.ceil x = fl := by
      rw [hxeq, hfleq, show ((s.length : ℚ) - 1) = (((s.length : Int) - 1 : Int) : ℚ)
        by push_cast; ring]
      exact Int.ceil_intCast _
    rw [hfr, hceil]
    simp

/-- The worked example of the spec: the 50th percentile of [10,20,30]. -/
theorem percentile_example : percentile [10, 20, 30] 50 = 20 := by
  have hsort : sortAsc [10, 20, 30] = [10, 20, 30] := by
    norm_num [sortAsc, insertAsc]
  have hfrac : fracIdx 3 50 = 1 := by
    norm_num [fracIdx]
  have hidx : pIdx 3 50 = 1 := by
    rw [pIdx, hfrac, Int.floor_one]
    rfl
  rw [percentile, if_neg (by decide : ¬([10, 20, 30] : List ℚ) = [])]
  simp only [hsort, List.length_cons, List.length_nil]
  norm_num [hidx, hfrac]

/-- C5: percentile returns 0 on the empty list at every p; on every non-empty
list with p in [0,100] it sorts ascending, forms the fractional index
p/100 × (n−1) and linearly interpolates between the bracketing elements,
matching the spec-side definition; in particular the 50th percentile of
[10,20,30] is 20. -/
theorem C5_percentile (v : List ℚ) (p : ℚ) :
    percentile [] p = 0 ∧
    (v ≠ [] → 0 ≤ p → p ≤ 100 → percentile v p = percentileSpec v p) ∧
    percentile [10, 20, 30] 50 = 20 :=
  ⟨by simp [percentile],
   fun hne h0 h1 => percentile_eq_spec v p hne h0 h1,
   percentile_example⟩

/-- Witness for C5 at the worked example of the spec. -/
theorem C5_witness :
    ([10, 20, 30] : List ℚ) ≠ [] ∧ (0 : ℚ) ≤ 50 ∧ (50 : ℚ) ≤ 100 ∧
    percentile ([] : List ℚ) 50 = 0 ∧
    percentile [10, 20, 30] 50 = percentileSpec [10, 20, 30] 50 :=
  ⟨by decide, by decide, by decide,
   (C5_percentile [10, 20, 30] 50).1,
   (C5_percentile [10, 20, 30] 50).2.1 (by decide) (by decide) (by decide)⟩

end TelemetryOps
